import Mathlib

/-!
Shallow embedding of the preflight safety-gated execution orchestrator in
src/ansible_runner/main.py, together with theorems about its behaviour.

Modelling conventions:
- Python strings are modelled as Lean `String`; the string operations used by
  the program (strip, lower, split, startswith, substring test) are embedded
  at the character-list level with ASCII semantics, which is faithful for the
  ASCII identifiers, prompts and tokens the program manipulates.
- File contents are modelled as `Option (List String)`: `none` is a missing
  file (Python raises FileNotFoundError), `some lines` is the list of lines.
- The exit code of each ssh probe subprocess is an oracle `rc : Nat → Int`
  indexed by the position of the probe in the host list.
- Terminal output (print calls) is not modelled; the observable effects of an
  orchestration run are collected in a trace of `Event`s: each `input()` call
  is a `prompt` event, each dispatch of the external automation engine via
  `subprocess.run(list)` is a `spawn` event carrying the argv vector and the
  shell flag, and a write to an audit store would be an `auditAppend` event.
  The source contains no audit-store write, so the constructor exists to make
  the absence of such writes a statable property.
-/

/-- Python `str.strip()` (ASCII whitespace): drop leading and trailing
whitespace characters. Models `line.strip()` at main.py:48 and
`input(...).strip()` at main.py:82. -/
def pyStrip (s : String) : String :=
  String.mk (((s.data.dropWhile Char.isWhitespace).reverse.dropWhile
    Char.isWhitespace).reverse)

/-- Python `str.lower()` (ASCII): lower-case every character. Models
`inventory.lower()` at main.py:87 and `.lower()` at main.py:82. -/
def pyLower (s : String) : String :=
  String.mk (s.data.map Char.toLower)

/-- `leadMatch needle hay` is true when `needle` occurs at the very start of
`hay` (character-list version of a leading match). -/
def leadMatch : List Char → List Char → Bool
  | [], _ => true
  | _ :: _, [] => false
  | n :: ns, h :: hs => n = h && leadMatch ns hs

/-- Python substring test `needle in hay` on character lists: `needle` occurs
contiguously somewhere in `hay`. -/
def pyContainsL (needle : List Char) : List Char → Bool
  | [] => needle.isEmpty
  | h :: hs => leadMatch needle (h :: hs) || pyContainsL needle hs

/-- Python `needle in hay` on strings. Models `"prod" in inventory.lower()`
at main.py:87 and main.py:113. -/
def pyIn (needle hay : String) : Bool :=
  pyContainsL needle.data hay.data

/-- Python `s.startswith(p)`. Models `line.startswith("[")` and
`line.startswith("#")` at main.py:49. -/
def startswith (s p : String) : Bool :=
  leadMatch p.data s.data

/-- The first whitespace-delimited token of a line:
`re.split(r"\s+", line)[0]` at main.py:50 (the line has already been
stripped, so the first split element is the maximal leading run of
non-whitespace characters). -/
def firstToken (line : String) : String :=
  String.mk (line.data.takeWhile (fun c => !c.isWhitespace))

/-- Helper for Python `str.split()` with no separator: accumulate the current
token (in reverse) while scanning the characters. -/
def splitWsAux : List Char → List Char → List String
  | [], acc => if acc.isEmpty then [] else [String.mk acc.reverse]
  | c :: cs, acc =>
    if c.isWhitespace then
      if acc.isEmpty then splitWsAux cs []
      else String.mk acc.reverse :: splitWsAux cs []
    else splitWsAux cs (c :: acc)

/-- Python `command.split()`: split on runs of whitespace, no empty tokens.
Models `command.split()` at main.py:119. -/
def pySplit (s : String) : List String :=
  splitWsAux s.data []

/-- The filter applied to each stripped line at main.py:49:
`if line and not line.startswith("[") and not line.startswith("#")`. -/
def keepLine (line : String) : Bool :=
  !(line == "") && !(startswith line "[") && !(startswith line "#")

/-- The loop body of `get_hosts_from_inventory` (main.py:47-51): strip each
line, keep it when it is a host line, and record its first token. -/
def parseLines : List String → List String
  | [] => []
  | l :: ls =>
    if keepLine (pyStrip l) then firstToken (pyStrip l) :: parseLines ls
    else parseLines ls

/-- `get_hosts_from_inventory` (main.py:43-54). The file argument is `none`
when the file is missing: the `FileNotFoundError` handler prints an error
message (terminal output, not modelled) and the accumulated empty host list
is returned; the return type carries no error indication. -/
def get_hosts_from_inventory (file : Option (List String)) : List String :=
  match file with
  | none => []
  | some lines => parseLines lines

/-- The ssh probe command built for one host at main.py:59-64 (the probe
outcome itself is external network behaviour, modelled by the `rc` oracle). -/
def ssh_probe_cmd (ssh_key : Option String) (user : Option String)
    (host : String) : List String :=
  ["ssh", "-o", "BatchMode=yes", "-o", "ConnectTimeout=5"]
    ++ (match ssh_key with | some k => ["-i", k] | none => [])
    ++ [match user with | some u => u ++ "@" ++ host | none => host]
    ++ ["exit"]

/-- The loop of `check_ssh_connectivity` (main.py:58-67): probe each host in
order; `rc i` is the exit code of the i-th probe subprocess; hosts whose
probe exits nonzero are appended to the failed list. -/
def checkLoop (rc : Nat → Int) : Nat → List String → List String
  | _, [] => []
  | i, host :: rest =>
    if rc i ≠ 0 then host :: checkLoop rc (i + 1) rest
    else checkLoop rc (i + 1) rest

/-- `check_ssh_connectivity` (main.py:56-68): returns the list of failed
hosts; stderr of each probe is captured and discarded by the source. -/
def check_ssh_connectivity (hosts : List String) (rc : Nat → Int) : List String :=
  checkLoop rc 0 hosts

/-- `LOCAL_REPO_PATH = Path.home() / "ansible-repo"` (main.py:10),
parameterised by the home directory. -/
def LOCAL_REPO_PATH (home : String) : String :=
  home ++ "/ansible-repo"

/-- The inventory path built at main.py:71 and main.py:97:
`LOCAL_REPO_PATH / "inventories" / inventory / "hosts"`. -/
def inventoryPath (home inventory : String) : String :=
  LOCAL_REPO_PATH home ++ "/inventories/" ++ inventory ++ "/hosts"

/-- Observable effects of one orchestration run. A `prompt` event is one
`input(text)` call; a `spawn` event is one `subprocess.run` dispatch of the
external automation engine, carrying the argv vector and whether a shell
interpreter is used (Python `subprocess.run(list)` without `shell=True` runs
the argv directly, so the source always spawns with `shell = false`); an
`auditAppend` event would be one write to an audit store — the source never
performs such a write, and the constructor makes that absence statable. -/
inductive Event where
  | prompt (text : String)
  | spawn (argv : List String) (shell : Bool)
  | auditAppend (line : String)
  deriving DecidableEq

/-- How one orchestration run terminates. -/
inductive Outcome where
  | abortedUnreachable
  | abortedRisk
  | dispatched (argv : List String) (shell : Bool)
  deriving DecidableEq

/-- The external inputs of one orchestration run: the operator home
directory (main.py:10), the inventory file content (`none` when missing),
the exit-code oracle for the ssh probes, and the operator replies to the two
confirmation prompts. The ansible.cfg user/key (main.py:74) only shape the
probe subprocesses, whose outcomes the `rc` oracle already captures. -/
structure World where
  home : String
  fileLines : Option (List String)
  rc : Nat → Int
  contAnswer : String
  confirmAnswer : String

/-- The reachability prompt text (main.py:82). -/
def contPrompt : String := "\nContinue anyway? (y/N): "

/-- The risk-checkpoint prompt text (main.py:88). -/
def prodPrompt : String :=
  "[WARNING] You are about to run against PROD. Type \x27PROD\x27 to continue: "

/-- The risk classifier of main.py:87 and main.py:113:
`"prod" in inventory.lower()`. -/
def classifiesElevated (inventory : String) : Bool :=
  pyIn "prod" (pyLower inventory)

/-- The prompt events emitted by the reachability checkpoint: `input` is
called exactly when the failed list is non-empty (main.py:78-82). -/
def reachPromptEvents (failed : List String) : List Event :=
  if failed = [] then [] else [Event.prompt contPrompt]

/-- The prompt events emitted by the risk checkpoint: `input` is called
exactly when the group classifies as elevated (main.py:87-88). -/
def riskPromptEvents (inventory : String) : List Event :=
  if classifiesElevated inventory then [Event.prompt prodPrompt] else []

/-- The argv vector built at main.py:93:
`["ansible-playbook", "-i", str(inventory_path), playbook]`. -/
def playbookCmd (home inventory playbook : String) : List String :=
  ["ansible-playbook", "-i", inventoryPath home inventory, playbook]

/-- The argv vector built at main.py:119:
`command.split() + ["-i", str(inventory_path)]`. -/
def customCmd (home inventory command : String) : List String :=
  pySplit command ++ ["-i", inventoryPath home inventory]

/-- `run_ansible_playbook` (main.py:70-94): parse the inventory, probe the
hosts, pass the reachability gate (abort unless the stripped, lowered reply
is exactly "y"), pass the risk gate (abort unless the reply is exactly
"PROD"), then dispatch the playbook command as an argv list without a
shell. The returned trace lists the prompts issued and the dispatch, in
order. -/
def run_ansible_playbook (inventory playbook : String) (w : World) :
    Outcome × List Event :=
  let failed := check_ssh_connectivity (get_hosts_from_inventory w.fileLines) w.rc
  if failed ≠ [] ∧ pyLower (pyStrip w.contAnswer) ≠ "y" then
    (Outcome.abortedUnreachable, reachPromptEvents failed)
  else if classifiesElevated inventory ∧ w.confirmAnswer ≠ "PROD" then
    (Outcome.abortedRisk, reachPromptEvents failed ++ riskPromptEvents inventory)
  else
    (Outcome.dispatched (playbookCmd w.home inventory playbook) false,
     reachPromptEvents failed ++ riskPromptEvents inventory
       ++ [Event.spawn (playbookCmd w.home inventory playbook) false])

/-- `run_custom_command` (main.py:96-120): identical control flow to
`run_ansible_playbook`, with the dispatched argv built from the stored
command text split on whitespace plus the inventory flag. -/
def run_custom_command (inventory command : String) (w : World) :
    Outcome × List Event :=
  let failed := check_ssh_connectivity (get_hosts_from_inventory w.fileLines) w.rc
  if failed ≠ [] ∧ pyLower (pyStrip w.contAnswer) ≠ "y" then
    (Outcome.abortedUnreachable, reachPromptEvents failed)
  else if classifiesElevated inventory ∧ w.confirmAnswer ≠ "PROD" then
    (Outcome.abortedRisk, reachPromptEvents failed ++ riskPromptEvents inventory)
  else
    (Outcome.dispatched (customCmd w.home inventory command) false,
     reachPromptEvents failed ++ riskPromptEvents inventory
       ++ [Event.spawn (customCmd w.home inventory command) false])

/-- The spawn events of a trace: the dispatches that actually happened. -/
def spawnEvents (t : List Event) : List Event :=
  t.filter (fun e => match e with | Event.spawn _ _ => true | _ => false)

/-- The number of audit-store writes in a trace. -/
def countAuditRecords (t : List Event) : Nat :=
  t.countP (fun e => match e with | Event.auditAppend _ => true | _ => false)

/-- The number of times a given prompt text is issued in a trace. -/
def countPromptOf (text : String) (t : List Event) : Nat :=
  t.countP (fun e => decide (e = Event.prompt text))

theorem spawnEvents_append (s t : List Event) :
    spawnEvents (s ++ t) = spawnEvents s ++ spawnEvents t := by
  simp [spawnEvents]

theorem spawnEvents_reachPromptEvents (f : List String) :
    spawnEvents (reachPromptEvents f) = [] := by
  unfold reachPromptEvents
  split <;> rfl

theorem spawnEvents_riskPromptEvents (i : String) :
    spawnEvents (riskPromptEvents i) = [] := by
  unfold riskPromptEvents
  split <;> rfl

theorem countAudit_append (s t : List Event) :
    countAuditRecords (s ++ t) = countAuditRecords s + countAuditRecords t := by
  simp [countAuditRecords, List.countP_append]

theorem countAudit_reachPromptEvents (f : List String) :
    countAuditRecords (reachPromptEvents f) = 0 := by
  unfold reachPromptEvents
  split <;> rfl

theorem countAudit_riskPromptEvents (i : String) :
    countAuditRecords (riskPromptEvents i) = 0 := by
  unfold riskPromptEvents
  split <;> rfl

theorem reachPromptEvents_nil : reachPromptEvents [] = [] := by
  simp [reachPromptEvents]

theorem riskPromptEvents_elevated (i : String) (h : classifiesElevated i = true) :
    riskPromptEvents i = [Event.prompt prodPrompt] := by
  simp [riskPromptEvents, h]

theorem spawnEvents_run_ansible (inventory playbook : String) (w : World) :
    spawnEvents (run_ansible_playbook inventory playbook w).2 = [] ∨
    spawnEvents (run_ansible_playbook inventory playbook w).2 =
      [Event.spawn (playbookCmd w.home inventory playbook) false] := by
  simp only [run_ansible_playbook]
  split
  · exact Or.inl (spawnEvents_reachPromptEvents _)
  · split
    · left
      rw [spawnEvents_append, spawnEvents_reachPromptEvents,
        spawnEvents_riskPromptEvents]
      rfl
    · right
      rw [List.append_assoc, spawnEvents_append, spawnEvents_reachPromptEvents,
        spawnEvents_append, spawnEvents_riskPromptEvents]
      rfl

theorem spawnEvents_run_custom (inventory command : String) (w : World) :
    spawnEvents (run_custom_command inventory command w).2 = [] ∨
    spawnEvents (run_custom_command inventory command w).2 =
      [Event.spawn (customCmd w.home inventory command) false] := by
  simp only [run_custom_command]
  split
  · exact Or.inl (spawnEvents_reachPromptEvents _)
  · split
    · left
      rw [spawnEvents_append, spawnEvents_reachPromptEvents,
        spawnEvents_riskPromptEvents]
      rfl
    · right
      rw [List.append_assoc, spawnEvents_append, spawnEvents_reachPromptEvents,
        spawnEvents_append, spawnEvents_riskPromptEvents]
      rfl

/-- C1 counterexample: the claim says every orchestration attempt appends
exactly one AuditRecord. On a concrete successful dispatch and on a concrete
reachability-gate abort, the number of audit-store writes in the trace is 0,
not 1: the source contains no audit log at all. -/
theorem audit_record_missing_cex :
    countAuditRecords (run_ansible_playbook "staging" "site.yml"
      ⟨"/root", some ["web1", "web2"], fun _ => 0, "", ""⟩).2 = 0 ∧
    countAuditRecords (run_ansible_playbook "staging" "site.yml"
      ⟨"/root", some ["web1", "web2"], fun _ => 0, "", ""⟩).2 ≠ 1 ∧
    countAuditRecords (run_ansible_playbook "staging" "site.yml"
      ⟨"/root", some ["db1"], fun _ => 255, "n", ""⟩).2 = 0 ∧
    countAuditRecords (run_custom_command "production-eu" "ansible all -m ping"
      ⟨"/root", some ["web1"], fun _ => 0, "", "prod"⟩).2 = 0 := by
  decide

/-- C1 (amended): no execution of run_ansible_playbook or run_custom_command
writes any audit record — the trace of every run, in every branch, contains
exactly zero audit-store writes, because the program maintains no audit
store. -/
theorem audit_records_never_written (inventory playbook command : String)
    (w : World) :
    countAuditRecords (run_ansible_playbook inventory playbook w).2 = 0 ∧
    countAuditRecords (run_custom_command inventory command w).2 = 0 := by
  constructor
  · simp only [run_ansible_playbook]
    split
    · exact countAudit_reachPromptEvents _
    · split
      · show countAuditRecords (reachPromptEvents _ ++ riskPromptEvents _) = 0
        rw [countAudit_append, countAudit_reachPromptEvents,
          countAudit_riskPromptEvents]
      · show countAuditRecords
          (reachPromptEvents _ ++ riskPromptEvents _ ++ [Event.spawn _ false]) = 0
        rw [countAudit_append, countAudit_append, countAudit_reachPromptEvents,
          countAudit_riskPromptEvents]
        rfl
  · simp only [run_custom_command]
    split
    · exact countAudit_reachPromptEvents _
    · split
      · show countAuditRecords (reachPromptEvents _ ++ riskPromptEvents _) = 0
        rw [countAudit_append, countAudit_reachPromptEvents,
          countAudit_riskPromptEvents]
      · show countAuditRecords
          (reachPromptEvents _ ++ riskPromptEvents _ ++ [Event.spawn _ false]) = 0
        rw [countAudit_append, countAudit_append, countAudit_reachPromptEvents,
          countAudit_riskPromptEvents]
        rfl

/-- C2: when at least one host is unreachable (the failed list is non-empty)
and the reachability reply, stripped and lowered, is anything but "y"
(including empty input), both run_ansible_playbook and run_custom_command
end at the reachability gate and their traces contain no spawn: the
dispatcher is never invoked. The gate is fail-closed. -/
theorem reachability_gate_fail_closed (inventory playbook command : String)
    (w : World)
    (hfail : check_ssh_connectivity (get_hosts_from_inventory w.fileLines) w.rc ≠ [])
    (hans : pyLower (pyStrip w.contAnswer) ≠ "y") :
    (run_ansible_playbook inventory playbook w).1 = Outcome.abortedUnreachable ∧
    spawnEvents (run_ansible_playbook inventory playbook w).2 = [] ∧
    (run_custom_command inventory command w).1 = Outcome.abortedUnreachable ∧
    spawnEvents (run_custom_command inventory command w).2 = [] := by
  have h1 : run_ansible_playbook inventory playbook w =
      (Outcome.abortedUnreachable, reachPromptEvents
        (check_ssh_connectivity (get_hosts_from_inventory w.fileLines) w.rc)) := by
    simp only [run_ansible_playbook]
    rw [if_pos ⟨hfail, hans⟩]
  have h2 : run_custom_command inventory command w =
      (Outcome.abortedUnreachable, reachPromptEvents
        (check_ssh_connectivity (get_hosts_from_inventory w.fileLines) w.rc)) := by
    simp only [run_custom_command]
    rw [if_pos ⟨hfail, hans⟩]
  rw [h1, h2]
  exact ⟨rfl, spawnEvents_reachPromptEvents _, rfl, spawnEvents_reachPromptEvents _⟩

/-- C2 witness: with one unreachable host and an empty reply (the fail-closed
default), neither function dispatches. -/
theorem reachability_gate_fail_closed_witness :
    (run_ansible_playbook "staging" "site.yml"
      ⟨"/root", some ["db1"], fun _ => 255, "", ""⟩).1 =
        Outcome.abortedUnreachable ∧
    spawnEvents (run_ansible_playbook "staging" "site.yml"
      ⟨"/root", some ["db1"], fun _ => 255, "", ""⟩).2 = [] ∧
    (run_custom_command "staging" "ansible all -m ping"
      ⟨"/root", some ["db1"], fun _ => 255, "", ""⟩).1 =
        Outcome.abortedUnreachable ∧
    spawnEvents (run_custom_command "staging" "ansible all -m ping"
      ⟨"/root", some ["db1"], fun _ => 255, "", ""⟩).2 = [] :=
  reachability_gate_fail_closed "staging" "site.yml" "ansible all -m ping"
    ⟨"/root", some ["db1"], fun _ => 255, "", ""⟩ (by decide) (by decide)

theorem leadMatch_append (xs ys l : List Char)
    (h : leadMatch (xs ++ ys) l = true) : leadMatch xs l = true := by
  induction xs generalizing l with
  | nil => rfl
  | cons a as ih =>
    cases l with
    | nil => simp [leadMatch] at h
    | cons b bs =>
      simp only [List.cons_append, leadMatch, Bool.and_eq_true,
        decide_eq_true_eq] at h ⊢
      exact ⟨h.1, ih bs h.2⟩

theorem pyContainsL_append (xs ys l : List Char)
    (h : pyContainsL (xs ++ ys) l = true) : pyContainsL xs l = true := by
  induction l with
  | nil =>
    simp only [pyContainsL, List.isEmpty_iff] at h ⊢
    exact (List.append_eq_nil.mp h).1
  | cons c cs ih =>
    simp only [pyContainsL, Bool.or_eq_true] at h ⊢
    rcases h with h | h
    · exact Or.inl (leadMatch_append xs ys _ h)
    · exact Or.inr (ih h)

/-- C3: whenever the risk checkpoint is reached (no unreachable hosts) on an
elevated group and the operator reply is any string other than the exact,
case-sensitive token "PROD" — including "prod", "Prod" and "PROD " — both
functions abort with no dispatch, and the risk prompt is issued exactly
once: a non-matching input aborts immediately, never re-prompts. -/
theorem risk_gate_exact_token (inventory playbook command : String) (w : World)
    (helev : classifiesElevated inventory = true)
    (hconf : w.confirmAnswer ≠ "PROD")
    (hreach : check_ssh_connectivity (get_hosts_from_inventory w.fileLines) w.rc = []) :
    (run_ansible_playbook inventory playbook w).1 = Outcome.abortedRisk ∧
    spawnEvents (run_ansible_playbook inventory playbook w).2 = [] ∧
    countPromptOf prodPrompt (run_ansible_playbook inventory playbook w).2 = 1 ∧
    (run_custom_command inventory command w).1 = Outcome.abortedRisk ∧
    spawnEvents (run_custom_command inventory command w).2 = [] ∧
    countPromptOf prodPrompt (run_custom_command inventory command w).2 = 1 := by
  have h1 : run_ansible_playbook inventory playbook w =
      (Outcome.abortedRisk, [Event.prompt prodPrompt]) := by
    simp only [run_ansible_playbook]
    rw [hreach]
    rw [if_neg (fun hcond => hcond.1 rfl)]
    rw [if_pos ⟨helev, hconf⟩]
    rw [reachPromptEvents_nil, riskPromptEvents_elevated inventory helev]
    rfl
  have h2 : run_custom_command inventory command w =
      (Outcome.abortedRisk, [Event.prompt prodPrompt]) := by
    simp only [run_custom_command]
    rw [hreach]
    rw [if_neg (fun hcond => hcond.1 rfl)]
    rw [if_pos ⟨helev, hconf⟩]
    rw [reachPromptEvents_nil, riskPromptEvents_elevated inventory helev]
    rfl
  rw [h1, h2]
  refine ⟨rfl, rfl, ?_, rfl, rfl, ?_⟩ <;> simp [countPromptOf]

/-- C3 witness: group "production-eu", all hosts reachable, reply "prod"
(a near-match of the token): both functions abort at the risk gate with a
single risk prompt and no dispatch. -/
theorem risk_gate_exact_token_witness :
    (run_ansible_playbook "production-eu" "site.yml"
      ⟨"/root", some ["web1"], fun _ => 0, "", "prod"⟩).1 = Outcome.abortedRisk ∧
    spawnEvents (run_ansible_playbook "production-eu" "site.yml"
      ⟨"/root", some ["web1"], fun _ => 0, "", "prod"⟩).2 = [] ∧
    countPromptOf prodPrompt (run_ansible_playbook "production-eu" "site.yml"
      ⟨"/root", some ["web1"], fun _ => 0, "", "prod"⟩).2 = 1 ∧
    (run_custom_command "production-eu" "ansible all -m ping"
      ⟨"/root", some ["web1"], fun _ => 0, "", "prod"⟩).1 = Outcome.abortedRisk ∧
    spawnEvents (run_custom_command "production-eu" "ansible all -m ping"
      ⟨"/root", some ["web1"], fun _ => 0, "", "prod"⟩).2 = [] ∧
    countPromptOf prodPrompt (run_custom_command "production-eu" "ansible all -m ping"
      ⟨"/root", some ["web1"], fun _ => 0, "", "prod"⟩).2 = 1 :=
  risk_gate_exact_token "production-eu" "site.yml" "ansible all -m ping"
    ⟨"/root", some ["web1"], fun _ => 0, "", "prod"⟩
    (by decide) (by decide) (by decide)

/-- C4: the risk classifier is deterministic and case-insensitive — two
identifiers with the same lower-casing classify identically — and an
identifier classifies as elevated exactly when its lower-casing contains
"prod" or "production" (containing "production" implies containing "prod",
so the code's single "prod" test decides the whole keyword set). -/
theorem risk_classification_case_insensitive (g₁ g₂ : String)
    (h : pyLower g₁ = pyLower g₂) :
    classifiesElevated g₁ = classifiesElevated g₂ ∧
    (classifiesElevated g₁ = true ↔
      (pyIn "prod" (pyLower g₁) = true ∨ pyIn "production" (pyLower g₁) = true)) := by
  constructor
  · unfold classifiesElevated
    rw [h]
  · constructor
    · intro he
      exact Or.inl he
    · rintro (he | he)
      · exact he
      · unfold classifiesElevated pyIn
        unfold pyIn at he
        have hsplit : ("production".data : List Char) =
            "prod".data ++ "uction".data := by decide
        rw [hsplit] at he
        exact pyContainsL_append _ _ _ he

/-- C4 witness: "PROD-east" and "prod-east" lower to the same string and
classify identically, and the classification matches the keyword test. -/
theorem risk_classification_case_insensitive_witness :
    classifiesElevated "PROD-east" = classifiesElevated "prod-east" ∧
    (classifiesElevated "PROD-east" = true ↔
      (pyIn "prod" (pyLower "PROD-east") = true ∨
       pyIn "production" (pyLower "PROD-east") = true)) :=
  risk_classification_case_insensitive "PROD-east" "prod-east" (by decide)

/-- C5: the parser output is exactly the in-order sequence of first tokens of
the stripped lines that survive the filter, and every returned entry comes
from some input line whose stripped form is non-empty and starts with
neither a group-header bracket nor a comment marker: blank lines, comment
lines and group-header lines never contribute an entry. -/
theorem parser_skips_blank_comment_header (lines : List String) :
    get_hosts_from_inventory (some lines) =
      lines.filterMap (fun l =>
        if keepLine (pyStrip l) then some (firstToken (pyStrip l)) else none) ∧
    ∀ h ∈ get_hosts_from_inventory (some lines), ∃ l ∈ lines,
      pyStrip l ≠ "" ∧ startswith (pyStrip l) "[" = false ∧
      startswith (pyStrip l) "#" = false ∧ h = firstToken (pyStrip l) := by
  have main : ∀ ls : List String, parseLines ls =
      ls.filterMap (fun l =>
        if keepLine (pyStrip l) then some (firstToken (pyStrip l)) else none) := by
    intro ls
    induction ls with
    | nil => rfl
    | cons l ls ih =>
      simp only [parseLines, List.filterMap_cons]
      split
      · simp [ih]
      · simp [ih]
  refine ⟨main lines, ?_⟩
  intro h hmem
  simp only [get_hosts_from_inventory] at hmem
  rw [main lines] at hmem
  rcases List.mem_filterMap.mp hmem with ⟨l, hl, hfl⟩
  refine ⟨l, hl, ?_⟩
  by_cases hk : keepLine (pyStrip l) = true
  · rw [if_pos hk] at hfl
    have h1 := hk
    unfold keepLine at h1
    simp only [Bool.and_eq_true, Bool.not_eq_true'] at h1
    obtain ⟨⟨hne, hbr⟩, hhash⟩ := h1
    refine ⟨?_, hbr, hhash, (Option.some.inj hfl).symm⟩
    intro hcontra
    rw [hcontra] at hne
    simp at hne
  · rw [if_neg hk] at hfl
    exact absurd hfl (Option.some_ne_none _).symm

/-- C5 witness: in a mixed inventory the only entry is the first token of the
single host line; the comment, blank and group-header lines contribute
nothing. -/
theorem parser_skips_blank_comment_header_witness :
    ∃ l ∈ ["# edge hosts", "   ", "[web]", "  web1 ansible_user=bob "],
      pyStrip l ≠ "" ∧ startswith (pyStrip l) "[" = false ∧
      startswith (pyStrip l) "#" = false ∧ "web1" = firstToken (pyStrip l) :=
  (parser_skips_blank_comment_header
    ["# edge hosts", "   ", "[web]", "  web1 ansible_user=bob "]).2
    "web1" (by decide)

/-- C6 counterexample: the claim says the tokens after the host identifier
are parsed as key=value overrides and attached to the Host. In the code the
parsed entry is the bare first token: two host lines whose override tokens
differ parse to identical results, so no override information is attached
to the returned entries. -/
theorem parser_overrides_not_attached_cex :
    get_hosts_from_inventory (some ["web1 ansible_port=22"]) =
      get_hosts_from_inventory (some ["web1 ansible_port=2222"]) ∧
    get_hosts_from_inventory (some ["web1 ansible_port=22"]) = ["web1"] := by
  decide

/-- C6 (amended): the parser takes the first whitespace-delimited token of a
host line as the host identifier and discards all remaining tokens — no
key=value overrides are attached, and malformed override tokens cannot make
parsing fail because the remaining tokens are never inspected: any two kept
lines with the same first token parse identically. -/
theorem parser_first_token_only (l l' : String)
    (hl : keepLine (pyStrip l) = true) (hl' : keepLine (pyStrip l') = true)
    (htok : firstToken (pyStrip l') = firstToken (pyStrip l)) :
    get_hosts_from_inventory (some [l]) = [firstToken (pyStrip l)] ∧
    get_hosts_from_inventory (some [l']) = get_hosts_from_inventory (some [l]) := by
  constructor
  · simp [get_hosts_from_inventory, parseLines, hl]
  · simp [get_hosts_from_inventory, parseLines, hl, hl', htok]

/-- C6 amended witness: a line with well-formed overrides and a line with a
malformed override token (no equals sign) both parse to just "web1". -/
theorem parser_first_token_only_witness :
    get_hosts_from_inventory (some ["web1 ansible_user=bob ansible_port=22"]) =
      [firstToken (pyStrip "web1 ansible_user=bob ansible_port=22")] ∧
    get_hosts_from_inventory (some ["web1 malformedtoken"]) =
      get_hosts_from_inventory (some ["web1 ansible_user=bob ansible_port=22"]) :=
  parser_first_token_only "web1 ansible_user=bob ansible_port=22"
    "web1 malformedtoken" (by decide) (by decide) (by decide)

/-- C7 counterexample: the claim says a missing source file is signalled to
the caller as a SourceNotFound condition. The function returns a bare list
and a missing file yields exactly the same value as a present-but-empty
file, so the caller receives no condition and cannot distinguish the two. -/
theorem inventory_missing_signal_cex :
    get_hosts_from_inventory none = get_hosts_from_inventory (some []) ∧
    get_hosts_from_inventory none = [] := by
  decide

/-- C7 (amended): when the inventory file is missing the parser prints an
error message (terminal output only) and returns the empty sequence; no
SourceNotFound condition reaches the caller — any inventory whose lines all
parse away is indistinguishable from a missing file at the call site. -/
theorem missing_file_returns_empty :
    get_hosts_from_inventory none = [] ∧
    ∀ lines : List String, parseLines lines = [] →
      get_hosts_from_inventory (some lines) = get_hosts_from_inventory none := by
  refine ⟨rfl, ?_⟩
  intro lines h
  simp [get_hosts_from_inventory, h]

/-- C7 amended witness: a comment-only inventory parses to the same value as
a missing file. -/
theorem missing_file_returns_empty_witness :
    get_hosts_from_inventory (some ["# only a comment", "   "]) =
      get_hosts_from_inventory none :=
  missing_file_returns_empty.2 ["# only a comment", "   "] (by decide)

theorem checkLoop_eq_enumFrom (rc : Nat → Int) (i : Nat) (hosts : List String) :
    checkLoop rc i hosts =
      ((List.enumFrom i hosts).filter (fun p => decide (rc p.1 ≠ 0))).map
        Prod.snd := by
  induction hosts generalizing i with
  | nil => rfl
  | cons h t ih =>
    simp only [checkLoop, List.enumFrom, List.filter_cons]
    by_cases hrc : rc i ≠ 0
    · rw [if_pos hrc]
      simp [hrc, ih]
    · rw [if_neg hrc]
      simp [hrc, ih]

theorem checkLoop_sublist (rc : Nat → Int) (i : Nat) (hosts : List String) :
    (checkLoop rc i hosts).Sublist hosts := by
  induction hosts generalizing i with
  | nil => exact List.Sublist.slnil
  | cons h t ih =>
    simp only [checkLoop]
    split
    · exact List.Sublist.cons₂ h (ih (i + 1))
    · exact List.Sublist.cons h (ih (i + 1))

/-- C8 counterexample: the claim says the prober returns exactly one result
per input host. On a one-host input whose probe succeeds the code returns
the empty list — the return value enumerates only the failed hosts, so it is
not total over the input, and it carries host names only, no error
strings. -/
theorem prober_not_total_cex :
    check_ssh_connectivity ["web1"] (fun _ => 0) = [] ∧
    (check_ssh_connectivity ["web1"] (fun _ => 0)).length ≠
      (["web1"] : List String).length := by
  decide

/-- C8 (amended): the prober returns precisely the sublist of input hosts,
in input order and with duplicates preserved, whose probe subprocess exited
nonzero; no per-host result record is produced and no error string is
returned (the source discards the captured stderr). -/
theorem prober_returns_failed_only (hosts : List String) (rc : Nat → Int) :
    check_ssh_connectivity hosts rc =
      ((List.enumFrom 0 hosts).filter (fun p => decide (rc p.1 ≠ 0))).map
        Prod.snd ∧
    (check_ssh_connectivity hosts rc).Sublist hosts :=
  ⟨checkLoop_eq_enumFrom rc 0 hosts, checkLoop_sublist rc 0 hosts⟩

/-- C9: every spawn performed by either orchestration function is the
structured argv vector the function builds — for run_ansible_playbook the
four-element playbook vector, for run_custom_command the split command plus
the inventory flag — and its shell flag is false: the dispatcher never
invokes the command through a shell interpreter. -/
theorem dispatch_no_shell (inventory playbook command : String) (w : World) :
    (∀ e ∈ spawnEvents (run_ansible_playbook inventory playbook w).2,
      e = Event.spawn (playbookCmd w.home inventory playbook) false) ∧
    (∀ e ∈ spawnEvents (run_custom_command inventory command w).2,
      e = Event.spawn (customCmd w.home inventory command) false) := by
  constructor
  · intro e he
    rcases spawnEvents_run_ansible inventory playbook w with h | h
    · rw [h] at he
      exact absurd he (List.not_mem_nil e)
    · rw [h] at he
      simpa using he
  · intro e he
    rcases spawnEvents_run_custom inventory command w with h | h
    · rw [h] at he
      exact absurd he (List.not_mem_nil e)
    · rw [h] at he
      simpa using he

/-- C9 witness: a concrete dispatched custom command spawns exactly the
structured argv list with the shell flag false. -/
theorem dispatch_no_shell_witness :
    Event.spawn ["ansible", "all", "-m", "ping", "-i",
        "/root/ansible-repo/inventories/staging/hosts"] false =
      Event.spawn (customCmd "/root" "staging" "ansible all -m ping") false :=
  (dispatch_no_shell "staging" "site.yml" "ansible all -m ping"
      ⟨"/root", some [], fun _ => 0, "", ""⟩).2
    (Event.spawn ["ansible", "all", "-m", "ping", "-i",
        "/root/ansible-repo/inventories/staging/hosts"] false)
    (by decide)

/-- C10: when the inventory file is missing and the group identifier is not
production-like, the run does not stop: the parser yields no hosts, the
probe of the empty host list yields no failures so the reachability gate is
skipped, the risk gate is skipped, and the automation command is dispatched
with the path of the nonexistent inventory file in its argv — with no prompt
ever issued. -/
theorem missing_inventory_still_dispatches (inventory playbook : String)
    (w : World)
    (hfile : w.fileLines = none)
    (hrisk : classifiesElevated inventory = false) :
    get_hosts_from_inventory w.fileLines = [] ∧
    check_ssh_connectivity (get_hosts_from_inventory w.fileLines) w.rc = [] ∧
    run_ansible_playbook inventory playbook w =
      (Outcome.dispatched (playbookCmd w.home inventory playbook) false,
       [Event.spawn (playbookCmd w.home inventory playbook) false]) := by
  have h0 : get_hosts_from_inventory w.fileLines = [] := by
    rw [hfile]
    rfl
  have h1 : check_ssh_connectivity (get_hosts_from_inventory w.fileLines) w.rc = [] := by
    rw [h0]
    rfl
  refine ⟨h0, h1, ?_⟩
  simp only [run_ansible_playbook]
  rw [h1]
  rw [if_neg (fun hcond => hcond.1 rfl)]
  rw [if_neg (fun hcond => by rw [hrisk] at hcond; exact absurd hcond.1 (by simp))]
  rw [reachPromptEvents_nil]
  simp [riskPromptEvents, hrisk]

/-- C10 witness: a missing inventory file for group "staging" still leads to
a dispatch of the playbook command naming the nonexistent inventory path. -/
theorem missing_inventory_still_dispatches_witness :
    get_hosts_from_inventory (World.fileLines ⟨"/root", none, fun _ => 0, "", ""⟩) = [] ∧
    check_ssh_connectivity
      (get_hosts_from_inventory (World.fileLines ⟨"/root", none, fun _ => 0, "", ""⟩))
      (World.rc ⟨"/root", none, fun _ => 0, "", ""⟩) = [] ∧
    run_ansible_playbook "staging" "site.yml" ⟨"/root", none, fun _ => 0, "", ""⟩ =
      (Outcome.dispatched (playbookCmd "/root" "staging" "site.yml") false,
       [Event.spawn (playbookCmd "/root" "staging" "site.yml") false]) :=
  missing_inventory_still_dispatches "staging" "site.yml"
    ⟨"/root", none, fun _ => 0, "", ""⟩ (by decide) (by decide)
